import Mathlib

/-!
# Verification of `flask_adminex/ext/sqlamodel.py`

A shallow embedding of the SQLAlchemy model-view adapter
(`AdminModelConverter` and `ModelView`) from
`src/flask_adminex/ext/sqlamodel.py`, together with theorems settling the
specification claims about it.

The embedding models the ORM mapper metadata the adapter reads (column
properties with nullability / primary-key / foreign-key flags, relationship
properties with a direction and a first local column), the form-field
conversion, the list/sortable scaffolding, and the CRUD delegation to the
ORM session.  External collaborators (the ORM's query engine, the form
library) are modelled by parameters: the theorems hold for every behaviour
of those parameters.
-/

set_option autoImplicit false

namespace SqlaModel

/-- Relationship direction, mirroring `sqlalchemy.orm.interfaces`
(`MANYTOONE`, `ONETOMANY`, and the remaining case `MANYTOMANY`). -/
inductive Direction where
  | manytoone
  | onetomany
  | manytomany
deriving DecidableEq, Repr

/-- A mapped column as the adapter observes it: `nullable`,
whether its `foreign_keys` set is non-empty, and its `primary_key` flag. -/
structure Column where
  nullable : Bool
  foreign_keys : Bool
  primary_key : Bool
deriving DecidableEq, Repr

/-- A `RelationshipProperty`: its attribute `key`, its `direction`, and
`local_remote_pairs[0][0]`, the first local column. -/
structure RelProp where
  key : String
  direction : Direction
  localColumn : Column
deriving DecidableEq, Repr

/-- A `ColumnProperty`: its attribute `key` and its column list
`p.columns`, represented as the first column (`p.columns[0]`, always
present in a mapped column property) plus the remaining columns. -/
structure ColProp where
  key : String
  column : Column
  extraColumns : List Column
deriving DecidableEq, Repr

/-- A property yielded by `mapper.iterate_properties`: either a
relationship property or a column property. -/
inductive MapperProp where
  | rel (r : RelProp)
  | col (c : ColProp)
deriving DecidableEq, Repr

/-- The attribute key of a mapper property (`p.key`). -/
def MapperProp.key : MapperProp → String
  | .rel r => r.key
  | .col c => c.key

/-- `ModelView.scaffold_list_columns`: iterate the mapper properties;
a relationship contributes its key when its direction is many-to-one;
a column property contributes its key unless its first column has foreign
keys or is a primary key. -/
def scaffold_list_columns : List MapperProp → List String
  | [] => []
  | .rel r :: ps =>
      (if r.direction = Direction.manytoone then [r.key] else [])
        ++ scaffold_list_columns ps
  | .col c :: ps =>
      (if c.column.foreign_keys || c.column.primary_key then []
       else [c.key])
        ++ scaffold_list_columns ps

/-- `ModelView.scaffold_sortable_columns`: iterate the column properties,
raising (`Except.error`) on the first property mapping to more than one
column, skipping primary/foreign-key columns, and mapping every remaining
key to itself.  The dictionary is modelled as an association list in
iteration order; property keys of a mapper are distinct. -/
def scaffold_sortable_columns (modelName : String) :
    List MapperProp → Except String (List (String × String))
  | [] => Except.ok []
  | .rel _ :: ps => scaffold_sortable_columns modelName ps
  | .col c :: ps =>
      if c.extraColumns.length > 0 then
        Except.error ("Automatic form scaffolding is not supported" ++
          " for multi-column properties (" ++ modelName ++ "." ++ c.key ++ ")")
      else if c.column.foreign_keys || c.column.primary_key then
        scaffold_sortable_columns modelName ps
      else
        match scaffold_sortable_columns modelName ps with
        | Except.error e => Except.error e
        | Except.ok rest => Except.ok ((c.key, c.key) :: rest)

/-- The slice of `field_args` that interacts with the relationship branch
of `AdminModelConverter.convert`: an optional dictionary which may
override the `allow_blank` keyword argument via `kwargs.update`. -/
structure FieldArgs where
  allow_blank : Option Bool
deriving DecidableEq, Repr

/-- The outcome of `AdminModelConverter.convert` when it returns a field:
a `QuerySelectField`, a `QuerySelectMultipleField` (each recording the
effective `allow_blank` keyword), or the field produced by the inherited
`ModelConverter.convert` for plain data columns. -/
inductive ConvertedField where
  | querySelectField (allow_blank : Bool)
  | querySelectMultipleField (allow_blank : Bool)
  | superConverted
deriving DecidableEq, Repr

/-- `AdminModelConverter.convert`.  For a relationship property:
`allow_blank` starts from the nullability of the first local column and is
then overridden by `field_args` when present; many-to-one becomes a
`QuerySelectField`, one-to-many becomes a `QuerySelectMultipleField`
except that a backref (first local column has no foreign keys) is skipped
when the view's `hide_backrefs` flag is set, and the remaining direction
falls through returning `None`.  For a column property: primary/foreign
key columns return `None`, all other properties go to the superclass
converter. -/
def convert (hide_backrefs : Bool) (field_args : Option FieldArgs) :
    MapperProp → Option ConvertedField
  | .rel prop =>
      let allowBlank :=
        match field_args with
        | some fa => fa.allow_blank.getD prop.localColumn.nullable
        | none => prop.localColumn.nullable
      match prop.direction with
      | .manytoone => some (ConvertedField.querySelectField allowBlank)
      | .onetomany =>
          if !prop.localColumn.foreign_keys && hide_backrefs then none
          else some (ConvertedField.querySelectMultipleField allowBlank)
      | .manytomany => none
  | .col c =>
      if c.column.foreign_keys || c.column.primary_key then none
      else some ConvertedField.superConverted

/-- A flash message surfaced to the UI by `flask.flash(message, category)`. -/
structure FlashMessage where
  message : String
  category : String
deriving DecidableEq, Repr

/-- The ORM session as the adapter observes it: the committed database
rows (`persistent`), objects added but not yet committed (`newObjects`),
attribute updates not yet committed (`dirty`, pairs of old and new
values), and objects marked for deletion (`deleted`).  The adapter only
ever calls `add`, `delete` and `commit` on it. -/
structure DbSession (α : Type) where
  persistent : List α
  newObjects : List α
  dirty : List (α × α)
  deleted : List α
deriving DecidableEq, Repr

/-- `session.add(model)`: register a pending new object. -/
def DbSession.add {α : Type} (s : DbSession α) (m : α) : DbSession α :=
  { s with newObjects := s.newObjects ++ [m] }

/-- Apply the pending dirty updates to one row. -/
def applyDirty {α : Type} [DecidableEq α] (ds : List (α × α)) (x : α) : α :=
  ds.foldl (fun a p => if a = p.1 then p.2 else a) x

/-- `session.commit()`: the ORM's transactional commit, which the adapter
delegates to.  On success all pending work is applied to the persistent
state atomically; on failure it raises and the persistent state is
untouched (the transaction is rolled back by the ORM, not by the
adapter).  Whether this particular commit succeeds is an environment
choice, passed in as `commitOk` together with the exception text. -/
def DbSession.commit {α : Type} [DecidableEq α] (commitOk : Bool)
    (commitErr : String) (s : DbSession α) : Except String (DbSession α) :=
  if commitOk then
    Except.ok
      { persistent :=
          ((s.persistent.filter (fun x => decide (x ∉ s.deleted))).map
            (applyDirty s.dirty)) ++ s.newObjects,
        newObjects := [], dirty := [], deleted := [] }
  else Except.error commitErr

/-- `session.delete(model)`: mark an object for deletion; like any session
call it may raise, which is an environment choice (`deleteOk`). -/
def DbSession.deleteObj {α : Type} (deleteOk : Bool) (deleteErr : String)
    (m : α) (s : DbSession α) : Except String (DbSession α) :=
  if deleteOk then Except.ok { s with deleted := s.deleted ++ [m] }
  else Except.error deleteErr

/-- `ModelView.create_model(form)`: construct a fresh model instance
(`newModel`), populate it from the form (`populate`, which may raise),
add it to the session and commit.  Any exception is caught: a message is
flashed with category `error` and `False` is returned; otherwise `True`.
The result is the returned boolean, the session state afterwards, and the
flash messages emitted by the call. -/
def create_model {α : Type} [DecidableEq α] (newModel : α)
    (populate : α → Except String α) (commitOk : Bool) (commitErr : String)
    (s : DbSession α) : Bool × DbSession α × List FlashMessage :=
  match populate newModel with
  | Except.error ex =>
      (false, s, [⟨"Failed to create model. " ++ ex, "error"⟩])
  | Except.ok m =>
      let s1 := s.add m
      match s1.commit commitOk commitErr with
      | Except.error ex =>
          (false, s1, [⟨"Failed to create model. " ++ ex, "error"⟩])
      | Except.ok s2 => (true, s2, [])

/-- `ModelView.update_model(form, model)`: populate the already-attached
model from the form (recorded as a dirty update) and commit.  Any
exception is caught: a message is flashed with category `error` and
`False` is returned; otherwise `True`. -/
def update_model {α : Type} [DecidableEq α]
    (populate : α → Except String α) (commitOk : Bool) (commitErr : String)
    (model : α) (s : DbSession α) : Bool × DbSession α × List FlashMessage :=
  match populate model with
  | Except.error ex =>
      (false, s, [⟨"Failed to update model. " ++ ex, "error"⟩])
  | Except.ok m =>
      let s1 : DbSession α := { s with dirty := s.dirty ++ [(model, m)] }
      match s1.commit commitOk commitErr with
      | Except.error ex =>
          (false, s1, [⟨"Failed to update model. " ++ ex, "error"⟩])
      | Except.ok s2 => (true, s2, [])

/-- `ModelView.delete_model(model)`: `session.delete` then
`session.commit`, with no `try/except` around either call and no returned
value (the Python method returns `None`), so any exception from either
session call propagates to the caller as an `Except.error`. -/
def delete_model {α : Type} [DecidableEq α] (deleteOk : Bool)
    (deleteErr : String) (commitOk : Bool) (commitErr : String)
    (model : α) (s : DbSession α) : Except String (DbSession α) :=
  match DbSession.deleteObj deleteOk deleteErr model s with
  | Except.error ex => Except.error ex
  | Except.ok s1 => s1.commit commitOk commitErr

/-- `ModelView.get_one(id)`: `session.query(model).get(id)`, a direct
primary-key lookup over the rows the session can see. -/
def get_one {α : Type} (getId : α → Nat) (s : DbSession α) (id : Nat) :
    Option α :=
  (s.persistent ++ s.newObjects).find? (fun m => getId m = id)

/-- The value of an entry of `self._sortable_columns`: a string (possibly
dotted, triggering an automatic join), an `InstrumentedAttribute`
(carrying its parent entity, also triggering a join), or anything else
(ignored for sorting). -/
inductive SortFieldVal where
  | str (s : String)
  | attr (parent : String) (name : String)
  | other
deriving DecidableEq, Repr

/-- `sort_field.split('.', 1)[0]`: the part of a dotted sort-field name
before the first dot (the table to join against). -/
def splitHead (s : String) : String :=
  (s.toList.takeWhile (fun ch => ch ≠ '.')).asString

/-- The ORM query engine as `get_list` uses it: the model's rows, the
effect of `query.join(...)` against a named entity, and the effect of
`query.order_by(...)` for a sort field with a descending flag.  These are
external ORM behaviours; the theorems hold for all of them. -/
structure OrmEnv (Row : Type) where
  rows : List Row
  join : String → List Row → List Row
  orderBy : SortFieldVal → Bool → List Row → List Row

/-- `ModelView.get_list(page, sort_column, sort_desc)`: count the full
query first, then optionally join and order by the resolved sortable
column, then offset by `page * page_size` when a page is given, and
always limit to `page_size` rows.  Returns the count and the resulting
rows. -/
def get_list {Row : Type} (env : OrmEnv Row)
    (sortable : List (String × SortFieldVal)) (page_size : Nat)
    (page : Option Nat) (sort_column : Option String) (sort_desc : Bool) :
    Nat × List Row :=
  let query := env.rows
  let count := query.length
  let query :=
    match sort_column with
    | none => query
    | some sc =>
        match List.lookup sc sortable with
        | none => query
        | some sf =>
            match sf with
            | SortFieldVal.str fieldName =>
                let q :=
                  if fieldName.toList.contains '.' then
                    env.join (splitHead fieldName) query
                  else query
                env.orderBy (SortFieldVal.str fieldName) sort_desc q
            | SortFieldVal.attr parent name =>
                env.orderBy (SortFieldVal.attr parent name) sort_desc
                  (env.join parent query)
            | SortFieldVal.other => query
  let query :=
    match page with
    | some p => query.drop (p * page_size)
    | none => query
  let query := query.take page_size
  (count, query)

/-! ## Characterisation lemmas for the scaffolding functions -/

/-- Membership in `scaffold_list_columns`: exactly the keys of
many-to-one relationships and of column properties whose first column is
neither a foreign key nor a primary key. -/
theorem mem_scaffold_list_columns (props : List MapperProp) (k : String) :
    k ∈ scaffold_list_columns props ↔
      (∃ r : RelProp, MapperProp.rel r ∈ props ∧ r.key = k ∧
        r.direction = Direction.manytoone) ∨
      (∃ c : ColProp, MapperProp.col c ∈ props ∧ c.key = k ∧
        c.column.foreign_keys = false ∧ c.column.primary_key = false) := by
  induction props with
  | nil => simp [scaffold_list_columns]
  | cons p ps ih =>
      cases p with
      | rel r =>
          by_cases hdir : r.direction = Direction.manytoone
          · simp only [scaffold_list_columns, if_pos hdir, List.mem_append,
              List.mem_singleton, ih, List.mem_cons]
            aesop
          · simp only [scaffold_list_columns, if_neg hdir, List.nil_append,
              ih, List.mem_cons]
            aesop
      | col c =>
          by_cases hflag :
              (c.column.foreign_keys || c.column.primary_key) = true
          · simp only [scaffold_list_columns, if_pos hflag, List.nil_append,
              ih, List.mem_cons]
            constructor
            · rintro (⟨r, hr, h1, h2⟩ | ⟨c', hc', h⟩)
              · exact Or.inl ⟨r, Or.inr hr, h1, h2⟩
              · exact Or.inr ⟨c', Or.inr hc', h⟩
            · rintro (⟨r, hr | hr, h1, h2⟩ | ⟨c', hc' | hc', h⟩)
              · exact absurd hr (by simp)
              · exact Or.inl ⟨r, hr, h1, h2⟩
              · rw [MapperProp.col.injEq] at hc'
                subst hc'
                simp only [Bool.or_eq_true] at hflag
                rcases hflag with hf | hf <;> simp [hf] at h
              · exact Or.inr ⟨c', hc', h⟩
          · simp only [scaffold_list_columns, if_neg hflag,
              List.mem_append, List.mem_singleton, ih, List.mem_cons,
              List.not_mem_nil, or_false]
            constructor
            · rintro (hk | ⟨r, hr, h1, h2⟩ | ⟨c', hc', h⟩)
              · subst hk
                simp only [Bool.or_eq_true, not_or, Bool.not_eq_true]
                  at hflag
                exact Or.inr ⟨c, Or.inl rfl, rfl, hflag.1, hflag.2⟩
              · exact Or.inl ⟨r, Or.inr hr, h1, h2⟩
              · exact Or.inr ⟨c', Or.inr hc', h⟩
            · rintro (⟨r, hr | hr, h1, h2⟩ | ⟨c', hc' | hc', h1, h2, h3⟩)
              · exact absurd hr (by simp)
              · exact Or.inr (Or.inl ⟨r, hr, h1, h2⟩)
              · rw [MapperProp.col.injEq] at hc'
                subst hc'
                exact Or.inl h1.symm
              · exact Or.inr (Or.inr ⟨c', hc', h1, h2, h3⟩)

/-- Every entry of a successfully scaffolded sortable dictionary comes
from a column property with clean flags and maps its key to itself. -/
theorem mem_scaffold_sortable_columns (modelName : String)
    (props : List MapperProp) (d : List (String × String))
    (hd : scaffold_sortable_columns modelName props = Except.ok d)
    (kv : String × String) (hkv : kv ∈ d) :
    ∃ c : ColProp, MapperProp.col c ∈ props ∧ c.key = kv.1 ∧ kv.2 = kv.1 ∧
      c.column.foreign_keys = false ∧ c.column.primary_key = false := by
  induction props generalizing d with
  | nil =>
      simp only [scaffold_sortable_columns, Except.ok.injEq] at hd
      subst hd
      simp at hkv
  | cons p ps ih =>
      cases p with
      | rel r =>
          simp only [scaffold_sortable_columns] at hd
          obtain ⟨c, hc, h1, h2, h3⟩ := ih d hd hkv
          exact ⟨c, List.mem_cons_of_mem _ hc, h1, h2, h3⟩
      | col c =>
          simp only [scaffold_sortable_columns] at hd
          by_cases hlen : c.extraColumns.length > 0
          · rw [if_pos hlen] at hd
            exact absurd hd (by simp)
          · rw [if_neg hlen] at hd
            by_cases hflag : (c.column.foreign_keys || c.column.primary_key) = true
            · rw [if_pos hflag] at hd
              obtain ⟨c', hc', h1, h2, h3⟩ := ih d hd hkv
              exact ⟨c', List.mem_cons_of_mem _ hc', h1, h2, h3⟩
            · rw [if_neg hflag] at hd
              cases hrest : scaffold_sortable_columns modelName ps with
              | error e => rw [hrest] at hd; exact absurd hd (by simp)
              | ok rest =>
                  rw [hrest] at hd
                  simp only [Except.ok.injEq] at hd
                  subst hd
                  rcases List.mem_cons.mp hkv with hkv1 | hkv2
                  · subst hkv1
                    simp only [Bool.or_eq_true, not_or, Bool.not_eq_true]
                      at hflag
                    exact ⟨c, List.mem_cons_self _ _, rfl, rfl,
                      hflag.1, hflag.2⟩
                  · obtain ⟨c', hc', h1, h2, h3⟩ := ih rest hrest hkv2
                    exact ⟨c', List.mem_cons_of_mem _ hc', h1, h2, h3⟩

/-! ## Claim theorems -/

/-- C1: for every mapped model, no column that is a primary key or has
foreign keys ever appears in the output of `scaffold_list_columns`, and no
such column ever appears as a key of the dictionary returned by
`scaffold_sortable_columns`.  (Mapper property keys are distinct, which
the `Nodup` hypothesis records.) -/
theorem pk_fk_columns_never_scaffolded (modelName : String)
    (props : List MapperProp)
    (hnodup : (props.map MapperProp.key).Nodup)
    (c : ColProp) (hmem : MapperProp.col c ∈ props)
    (hflag : c.column.foreign_keys = true ∨ c.column.primary_key = true) :
    c.key ∉ scaffold_list_columns props ∧
      ∀ d, scaffold_sortable_columns modelName props = Except.ok d →
        ∀ kv ∈ d, kv.1 ≠ c.key := by
  have hinj := List.inj_on_of_nodup_map hnodup
  constructor
  · intro habs
    rw [mem_scaffold_list_columns] at habs
    rcases habs with ⟨r, hr, hkey, _⟩ | ⟨c', hc', hkey, hfk, hpk⟩
    · have heq := hinj hr hmem (by simpa [MapperProp.key] using hkey)
      exact absurd heq (by simp)
    · have heq := hinj hc' hmem (by simpa [MapperProp.key] using hkey)
      rw [MapperProp.col.injEq] at heq
      subst heq
      rcases hflag with hf | hf
      · rw [hf] at hfk; exact absurd hfk (by simp)
      · rw [hf] at hpk; exact absurd hpk (by simp)
  · intro d hd kv hkv habs
    obtain ⟨c', hc', hkey, _, hfk, hpk⟩ :=
      mem_scaffold_sortable_columns modelName props d hd kv hkv
    have heq := hinj hc' hmem
      (by simp only [MapperProp.key]; rw [hkey, habs])
    rw [MapperProp.col.injEq] at heq
    subst heq
    rcases hflag with hf | hf
    · rw [hf] at hfk; exact absurd hfk (by simp)
    · rw [hf] at hpk; exact absurd hpk (by simp)

/-- Witness for C1 on a concrete model with a primary-key column `id`
and a plain column `name`. -/
theorem pk_fk_columns_never_scaffolded_witness :
    (ColProp.mk "id" ⟨false, false, true⟩ []).key ∉
        scaffold_list_columns
          [MapperProp.col ⟨"id", ⟨false, false, true⟩, []⟩,
           MapperProp.col ⟨"name", ⟨true, false, false⟩, []⟩] ∧
      ∀ d, scaffold_sortable_columns "User"
            [MapperProp.col ⟨"id", ⟨false, false, true⟩, []⟩,
             MapperProp.col ⟨"name", ⟨true, false, false⟩, []⟩]
          = Except.ok d →
        ∀ kv ∈ d, kv.1 ≠ (ColProp.mk "id" ⟨false, false, true⟩ []).key :=
  pk_fk_columns_never_scaffolded "User"
    [MapperProp.col ⟨"id", ⟨false, false, true⟩, []⟩,
     MapperProp.col ⟨"name", ⟨true, false, false⟩, []⟩]
    (by decide) ⟨"id", ⟨false, false, true⟩, []⟩ (by decide) (Or.inr rfl)

/-- C8: `scaffold_sortable_columns` raises an exception if and only if
some column property of the model maps to more than one column; being an
`Except`, on such a model it never returns a dictionary. -/
theorem sortable_columns_error_iff_multicolumn (modelName : String)
    (props : List MapperProp) :
    (∃ e, scaffold_sortable_columns modelName props = Except.error e) ↔
      ∃ c : ColProp, MapperProp.col c ∈ props ∧ c.extraColumns ≠ [] := by
  induction props with
  | nil => simp [scaffold_sortable_columns]
  | cons p ps ih =>
      cases p with
      | rel r =>
          simp only [scaffold_sortable_columns, List.mem_cons]
          constructor
          · intro h
            obtain ⟨c, hc, hex⟩ := ih.mp h
            exact ⟨c, Or.inr hc, hex⟩
          · rintro ⟨c, hc | hc, hex⟩
            · exact absurd hc (by simp)
            · exact ih.mpr ⟨c, hc, hex⟩
      | col c =>
          simp only [scaffold_sortable_columns, List.mem_cons]
          by_cases hlen : c.extraColumns.length > 0
          · rw [if_pos hlen]
            constructor
            · intro _
              exact ⟨c, Or.inl rfl, List.length_pos.mp hlen⟩
            · intro _
              exact ⟨_, rfl⟩
          · rw [if_neg hlen]
            have hextra : c.extraColumns = [] :=
              List.length_eq_zero.mp (Nat.eq_zero_of_not_pos hlen)
            by_cases hflag :
                (c.column.foreign_keys || c.column.primary_key) = true
            · rw [if_pos hflag]
              constructor
              · intro h
                obtain ⟨c', hc', hex⟩ := ih.mp h
                exact ⟨c', Or.inr hc', hex⟩
              · rintro ⟨c', hc' | hc', hex⟩
                · rw [MapperProp.col.injEq] at hc'
                  subst hc'
                  exact absurd hextra hex
                · exact ih.mpr ⟨c', hc', hex⟩
            · rw [if_neg hflag]
              cases hrest : scaffold_sortable_columns modelName ps with
              | error e =>
                  constructor
                  · intro _
                    obtain ⟨c', hc', hex⟩ := ih.mp ⟨e, hrest⟩
                    exact ⟨c', Or.inr hc', hex⟩
                  · intro _
                    exact ⟨e, rfl⟩
              | ok rest =>
                  constructor
                  · rintro ⟨e, habs⟩
                    exact absurd habs (by simp)
                  · rintro ⟨c', hc' | hc', hex⟩
                    · rw [MapperProp.col.injEq] at hc'
                      subst hc'
                      exact absurd hextra hex
                    · obtain ⟨e, he⟩ := ih.mpr ⟨c', hc', hex⟩
                      rw [hrest] at he
                      exact absurd he (by simp)

/-- C9: whenever `scaffold_sortable_columns` returns a dictionary, every
key of that dictionary also appears in `scaffold_list_columns`, and each
key is mapped to itself. -/
theorem sortable_keys_subset_list_columns (modelName : String)
    (props : List MapperProp) (d : List (String × String))
    (hd : scaffold_sortable_columns modelName props = Except.ok d) :
    ∀ kv ∈ d, kv.2 = kv.1 ∧ kv.1 ∈ scaffold_list_columns props := by
  intro kv hkv
  obtain ⟨c, hc, h1, h2, h3, h4⟩ :=
    mem_scaffold_sortable_columns modelName props d hd kv hkv
  exact ⟨h2,
    (mem_scaffold_list_columns props kv.1).mpr (Or.inr ⟨c, hc, h1, h3, h4⟩)⟩

/-- Witness for C9 on a concrete model with one plain column. -/
theorem sortable_keys_subset_list_columns_witness :
    ("name", "name").2 = ("name", "name").1 ∧
      ("name", "name").1 ∈ scaffold_list_columns
        [MapperProp.col ⟨"name", ⟨true, false, false⟩, []⟩] :=
  sortable_keys_subset_list_columns "User"
    [MapperProp.col ⟨"name", ⟨true, false, false⟩, []⟩]
    [("name", "name")] rfl ("name", "name") (by decide)

/-- C2: for every one-to-many relationship property whose first local
column has no foreign keys (a backref), when the view's `hide_backrefs`
flag is enabled, `AdminModelConverter.convert` returns `None`, so the
relationship produces no form field — whatever `field_args` is. -/
theorem convert_hides_backrefs (field_args : Option FieldArgs) (r : RelProp)
    (hdir : r.direction = Direction.onetomany)
    (hfk : r.localColumn.foreign_keys = false) :
    convert true field_args (MapperProp.rel r) = none := by
  simp [convert, hdir, hfk]

/-- Witness for C2 on a concrete backref relationship. -/
theorem convert_hides_backrefs_witness :
    convert true none
        (MapperProp.rel ⟨"posts", Direction.onetomany, ⟨true, false, false⟩⟩)
      = none :=
  convert_hides_backrefs none
    ⟨"posts", Direction.onetomany, ⟨true, false, false⟩⟩ rfl rfl

/-- Counterexample to C3 as stated: when `field_args` carries an
`allow_blank` entry, `kwargs.update(field_args)` overrides the value
derived from the local column's nullability, so the produced
`QuerySelectField` does not take `allow_blank` from the column.  Here the
local column is not nullable, yet the field has `allow_blank = true`. -/
theorem convert_allow_blank_counterexample :
    convert true (some ⟨some true⟩)
        (MapperProp.rel ⟨"user", Direction.manytoone, ⟨false, true, false⟩⟩)
      = some (ConvertedField.querySelectField true) ∧
    (Column.mk false true false).nullable = false :=
  ⟨rfl, rfl⟩

/-- C3 (amended): for every relationship property passed to
`AdminModelConverter.convert`, a many-to-one relationship is converted to
a `QuerySelectField` and a non-suppressed one-to-many relationship to a
`QuerySelectMultipleField`, with `allow_blank` set from the nullability
of the first local column whenever `field_args` does not override
`allow_blank`. -/
theorem convert_relationship_fields (hide_backrefs : Bool)
    (field_args : Option FieldArgs) (r : RelProp)
    (hfa : field_args = none ∨
      ∃ fa, field_args = some fa ∧ fa.allow_blank = none) :
    (r.direction = Direction.manytoone →
      convert hide_backrefs field_args (MapperProp.rel r)
        = some (ConvertedField.querySelectField r.localColumn.nullable)) ∧
    (r.direction = Direction.onetomany →
      (r.localColumn.foreign_keys = true ∨ hide_backrefs = false) →
      convert hide_backrefs field_args (MapperProp.rel r)
        = some (ConvertedField.querySelectMultipleField
            r.localColumn.nullable)) := by
  rcases hfa with h | ⟨fa, h, hab⟩
  · subst h
    constructor
    · intro hdir
      simp [convert, hdir]
    · intro hdir hnb
      rcases hnb with hfk | hhb
      · simp [convert, hdir, hfk]
      · simp [convert, hdir, hhb]
  · subst h
    constructor
    · intro hdir
      simp [convert, hdir, hab]
    · intro hdir hnb
      rcases hnb with hfk | hhb
      · simp [convert, hdir, hab, hfk]
      · simp [convert, hdir, hab, hhb]

/-- Witness for C3 (amended) on a concrete many-to-one relationship with
a nullable foreign-key column and no `field_args`. -/
theorem convert_relationship_fields_witness :
    convert true none
        (MapperProp.rel ⟨"user", Direction.manytoone, ⟨true, true, false⟩⟩)
      = some (ConvertedField.querySelectField
          (RelProp.mk "user" Direction.manytoone
            ⟨true, true, false⟩).localColumn.nullable) :=
  (convert_relationship_fields true none
    ⟨"user", Direction.manytoone, ⟨true, true, false⟩⟩ (Or.inl rfl)).1 rfl

/-- C4: for every form input, if any exception is raised during
`create_model` or `update_model` (while populating the model or while
committing), the exception is caught, a human-readable message is flashed
with category `error` and the method returns `False`; if no exception is
raised the method returns `True` (and nothing is flashed). -/
theorem create_update_error_policy {α : Type} [DecidableEq α]
    (newModel model : α) (populate : α → Except String α)
    (commitOk : Bool) (commitErr : String) (s : DbSession α) :
    (∀ ex, populate newModel = Except.error ex →
      create_model newModel populate commitOk commitErr s
        = (false, s, [⟨"Failed to create model. " ++ ex, "error"⟩])) ∧
    (∀ m, populate newModel = Except.ok m → commitOk = false →
      create_model newModel populate commitOk commitErr s
        = (false, s.add m,
            [⟨"Failed to create model. " ++ commitErr, "error"⟩])) ∧
    (∀ m, populate newModel = Except.ok m → commitOk = true →
      (create_model newModel populate commitOk commitErr s).1 = true ∧
      (create_model newModel populate commitOk commitErr s).2.2 = []) ∧
    (∀ ex, populate model = Except.error ex →
      update_model populate commitOk commitErr model s
        = (false, s, [⟨"Failed to update model. " ++ ex, "error"⟩])) ∧
    (∀ m, populate model = Except.ok m → commitOk = false →
      update_model populate commitOk commitErr model s
        = (false, { s with dirty := s.dirty ++ [(model, m)] },
            [⟨"Failed to update model. " ++ commitErr, "error"⟩])) ∧
    (∀ m, populate model = Except.ok m → commitOk = true →
      (update_model populate commitOk commitErr model s).1 = true ∧
      (update_model populate commitOk commitErr model s).2.2 = []) := by
  refine ⟨?_, ?_, ?_, ?_, ?_, ?_⟩
  · intro ex hpop
    simp [create_model, hpop]
  · intro m hpop hco
    simp [create_model, hpop, hco, DbSession.commit]
  · intro m hpop hco
    simp [create_model, hpop, hco, DbSession.commit]
  · intro ex hpop
    simp [update_model, hpop]
  · intro m hpop hco
    simp [update_model, hpop, hco, DbSession.commit]
  · intro m hpop hco
    simp [update_model, hpop, hco, DbSession.commit]

/-- Witness for C4: a failing populate on a concrete session is caught
and flashed. -/
theorem create_update_error_policy_witness :
    create_model (α := Nat) 0 (fun _ => Except.error "boom") true "c"
        ⟨[], [], [], []⟩
      = (false, ⟨[], [], [], []⟩,
          [⟨"Failed to create model. " ++ "boom", "error"⟩]) :=
  (create_update_error_policy 0 0 (fun _ => Except.error "boom") true "c"
    ⟨[], [], [], []⟩).1 "boom" rfl

/-- C5: `delete_model` performs no error handling: any exception raised
by the session's `delete` or `commit` propagates to the caller, and on
success the call yields no success/failure indication beyond the session
state (the Python method returns `None`). -/
theorem delete_model_propagates_errors {α : Type} [DecidableEq α]
    (deleteOk : Bool) (deleteErr : String) (commitOk : Bool)
    (commitErr : String) (model : α) (s : DbSession α) :
    (deleteOk = false →
      delete_model deleteOk deleteErr commitOk commitErr model s
        = Except.error deleteErr) ∧
    (deleteOk = true → commitOk = false →
      delete_model deleteOk deleteErr commitOk commitErr model s
        = Except.error commitErr) ∧
    (deleteOk = true → commitOk = true →
      ∃ s2, delete_model deleteOk deleteErr commitOk commitErr model s
        = Except.ok s2) := by
  refine ⟨?_, ?_, ?_⟩
  · intro hdo
    simp [delete_model, DbSession.deleteObj, hdo]
  · intro hdo hco
    simp [delete_model, DbSession.deleteObj, DbSession.commit, hdo, hco]
  · intro hdo hco
    subst hdo
    subst hco
    exact ⟨_, rfl⟩

/-- Witness for C5: a failing session delete on a concrete session
surfaces as an uncaught error. -/
theorem delete_model_propagates_errors_witness :
    delete_model (α := Nat) false "db is locked" true "c" 1 ⟨[1], [], [], []⟩
      = Except.error "db is locked" :=
  (delete_model_propagates_errors false "db is locked" true "c" 1
    ⟨[1], [], [], []⟩).1 rfl

/-- Counterexample to C6 as stated: `delete_model` is not wrapped in a
`try/except` that flashes a message on failure — a failing session call
inside it propagates to the caller as an uncaught exception. -/
theorem delete_model_not_wrapped_counterexample :
    delete_model (α := Nat) false "database error" true "c" 1
        ⟨[1], [], [], []⟩
      = Except.error "database error" := rfl

/-- C6 (amended): `create_model` and `update_model` are short delegations
to the ORM session wrapped in a `try/except` that flashes exactly one
message with category `error` and returns `False` on failure;
`get_list`, `get_one` and `delete_model` delegate to the session without
any exception handling, so a failing session call inside `delete_model`
propagates. -/
theorem crud_delegation_error_handling {α : Type} [DecidableEq α]
    (newModel model : α) (populate : α → Except String α)
    (deleteOk commitOk : Bool) (deleteErr commitErr : String)
    (s : DbSession α) :
    ((create_model newModel populate commitOk commitErr s).1 = false →
      (create_model newModel populate commitOk commitErr s).2.2.map
        FlashMessage.category = ["error"]) ∧
    ((update_model populate commitOk commitErr model s).1 = false →
      (update_model populate commitOk commitErr model s).2.2.map
        FlashMessage.category = ["error"]) ∧
    (deleteOk = false →
      delete_model deleteOk deleteErr commitOk commitErr model s
        = Except.error deleteErr) ∧
    (deleteOk = true → commitOk = false →
      delete_model deleteOk deleteErr commitOk commitErr model s
        = Except.error commitErr) := by
  refine ⟨?_, ?_, ?_, ?_⟩
  · cases hpop : populate newModel with
    | error ex => intro _; simp [create_model, hpop]
    | ok m =>
        cases commitOk with
        | false => intro _; simp [create_model, hpop, DbSession.commit]
        | true =>
            intro habs
            simp [create_model, hpop, DbSession.commit] at habs
  · cases hpop : populate model with
    | error ex => intro _; simp [update_model, hpop]
    | ok m =>
        cases commitOk with
        | false => intro _; simp [update_model, hpop, DbSession.commit]
        | true =>
            intro habs
            simp [update_model, hpop, DbSession.commit] at habs
  · intro hdo
    simp [delete_model, DbSession.deleteObj, hdo]
  · intro hdo hco
    simp [delete_model, DbSession.deleteObj, DbSession.commit, hdo, hco]

/-- Witness for C6 (amended): concrete failing commit during update is
flashed with category `error`, and a failing delete propagates. -/
theorem crud_delegation_error_handling_witness :
    ((update_model (α := Nat) (fun m => Except.ok m) false "commit failed" 1
        ⟨[1], [], [], []⟩).2.2.map FlashMessage.category = ["error"]) ∧
    (delete_model (α := Nat) false "del failed" true "c" 1 ⟨[1], [], [], []⟩
      = Except.error "del failed") :=
  ⟨(crud_delegation_error_handling (α := Nat) 0 1 (fun m => Except.ok m)
      false false "del failed" "commit failed" ⟨[1], [], [], []⟩).2.1 rfl,
   (crud_delegation_error_handling (α := Nat) 0 1 (fun m => Except.ok m)
      false true "del failed" "commit failed" ⟨[1], [], [], []⟩).2.2.1 rfl⟩

/-- C7: when `create_model` or `update_model` returns `False`, the
persistent state observable through the session is unchanged by the
failed operation — the pending work is never applied, because the commit
either never runs or fails before applying anything (the ORM's
transaction semantics, which the adapter relies on rather than
implements). -/
theorem failed_create_update_leaves_persistent_state {α : Type}
    [DecidableEq α] (newModel model : α) (populate : α → Except String α)
    (commitOk : Bool) (commitErr : String) (s : DbSession α) :
    ((create_model newModel populate commitOk commitErr s).1 = false →
      ((create_model newModel populate commitOk commitErr s).2.1).persistent
        = s.persistent) ∧
    ((update_model populate commitOk commitErr model s).1 = false →
      ((update_model populate commitOk commitErr model s).2.1).persistent
        = s.persistent) := by
  constructor
  · cases hpop : populate newModel with
    | error ex => intro _; simp [create_model, hpop]
    | ok m =>
        cases commitOk with
        | false =>
            intro _
            simp [create_model, hpop, DbSession.commit, DbSession.add]
        | true =>
            intro habs
            simp [create_model, hpop, DbSession.commit] at habs
  · cases hpop : populate model with
    | error ex => intro _; simp [update_model, hpop]
    | ok m =>
        cases commitOk with
        | false =>
            intro _
            simp [update_model, hpop, DbSession.commit]
        | true =>
            intro habs
            simp [update_model, hpop, DbSession.commit] at habs

/-- Witness for C7: a concrete failing commit during create leaves the
committed rows untouched. -/
theorem failed_create_update_leaves_persistent_state_witness :
    ((create_model (α := Nat) 0 (fun m => Except.ok (m + 1)) false
        "commit failed" ⟨[5], [], [], []⟩).2.1).persistent = [5] :=
  (failed_create_update_leaves_persistent_state (α := Nat) 0 0
    (fun m => Except.ok (m + 1)) false "commit failed"
    ⟨[5], [], [], []⟩).1 rfl

/-- C10: for every combination of `page`, `sort_column` and `sort_desc`,
the count returned by `get_list` is the total number of rows of the
model, computed before any sorting, offset or limit, hence independent of
those arguments; and the returned row list is always limited to at most
`page_size` rows — for every behaviour of the ORM's join and order-by. -/
theorem get_list_count_and_limit {Row : Type} (env : OrmEnv Row)
    (sortable : List (String × SortFieldVal)) (page_size : Nat)
    (page : Option Nat) (sort_column : Option String) (sort_desc : Bool) :
    (get_list env sortable page_size page sort_column sort_desc).1
        = env.rows.length ∧
    (get_list env sortable page_size page sort_column sort_desc).2.length
        ≤ page_size := by
  refine ⟨rfl, ?_⟩
  simp only [get_list, List.length_take]
  exact Nat.min_le_left _ _

end SqlaModel
